import Mathlib

/-!
Shallow embedding of the user I/O channel controller of
`src/Grbl_Esp32/user_io_control.cpp` (class `UserIoControl` and the
dispatcher `sys_io_control`), together with theorems checking the
natural-language specification against it.

Machine integers are modelled as `Nat` with an explicit `% 2^w` exactly
where the C arithmetic can wrap (the `uint32_t` product `duration * 1000`
in `UserIoControl::on`, and the `uint16_t` duration parameter of
`sys_io_control`).  `esp_timer_get_time()` (`int64_t` microseconds,
non-negative and far from overflow in practice) is passed in as a `Nat`
argument `now`.  The hardware side effects (`ledcWrite`/`ledcRead` and
`digitalWrite`) are modelled as two extra state fields, `ledc_duty` and
`digital_out`, holding the current PWM duty of the channel's LEDC unit
and the current digital pin level.
-/

namespace UserIo

/-- Modelled from the spec: the mode constants come from the header
`user_io_control.h`, which is not under `src/`.  The spec lists exactly
three enumerated modes (ON_OFF, SPIKE_HOLD_OFF, PWM_LOW_HIGH); the usual
C enumeration 0, 1, 2 is used, consistent with `set_mode`'s range check
`mode > 0 && mode < 3` and with `init`'s `default:` branch treating every
non-ON_OFF mode as PWM. -/
def USER_IO_MODE_ON_OFF : Nat := 0

/-- Modelled from the spec: second of the three enumerated modes. -/
def USER_IO_MODE_SPIKE_HOLD_OFF : Nat := 1

/-- Modelled from the spec: third of the three enumerated modes. -/
def USER_MODE_PWM_LOW_HIGH : Nat := 2

/-- Modelled from the spec: phase constant for the SPIKE phase
(header not under `src/`; spec says phase is one of NONE/SPIKE/HOLD). -/
def USER_IO_PHASE_SPIKE : Nat := 1

/-- Modelled from the spec: phase constant for the HOLD phase. -/
def USER_IO_PHASE_HOLD : Nat := 2

/-- Modelled from the spec: compile-time PWM resolution constant
`USER_IO_PULSE_RES_BITS` from the header, which is not under `src/`.
The spec's worked example (§8) uses resolution 8 bits, the header's
default. -/
def USER_IO_PULSE_RES_BITS : Nat := 8

/-- Per-channel state of `UserIoControl`, plus the two modelled hardware
outputs.  Field names follow the C++ members. -/
structure UserIoControl where
  pin_num : Nat
  channel_num : Nat
  gcode_num : Nat
  mode : Nat
  phase : Nat
  isOn : Bool
  spike_end : Nat
  hold_end : Nat
  spike_length : Nat
  hold_length : Nat
  spike_percent : Nat
  hold_percent : Nat
  pwm_freq : Nat
  pwm_resolution_bits : Nat
  pwm_duty_low : Nat
  pwm_duty_high : Nat
  ledc_duty : Nat
  digital_out : Bool
  deriving DecidableEq, Repr

namespace UserIoControl

/-- `UserIoControl::_write_pwm`: writes the LEDC duty only when it
differs from the current one (`ledcRead`); the resulting hardware state
is the same either way. -/
def write_pwm (c : UserIoControl) (duty : Nat) : UserIoControl :=
  if c.ledc_duty ≠ duty then { c with ledc_duty := duty } else c

/-- Modelled from the spec: `mapConstrain` lives in the firmware's
utility code, which is not under `src/`.  Per the spec it clamps the
input to `[in_min, in_max]` and applies the linear map onto
`[out_min, out_max]`, truncating to integer (`Nat` floor division; for
the concrete arguments used here, percent in `[0,100]` onto
`[0, 2^8 - 1]`, the float computation of the firmware and the exact
rational floor agree). -/
def mapConstrain (x in_min in_max out_min out_max : Nat) : Nat :=
  let xc := min (max x in_min) in_max
  out_min + (xc - in_min) * (out_max - out_min) / (in_max - in_min)

/-- `UserIoControl::_write_percent`: maps a percent through
`mapConstrain` onto `[0, (1 << USER_IO_PULSE_RES_BITS) - 1]` — note the
compile-time constant, not the member `pwm_resolution_bits` — and
writes the resulting duty. -/
def write_percent (c : UserIoControl) (percent : Nat) : UserIoControl :=
  write_pwm c (mapConstrain percent 0 100 0 (2 ^ USER_IO_PULSE_RES_BITS - 1))

/-- `UserIoControl::on(bool isOn, uint32_t duration)`.  `duration` is a
`uint32_t` millisecond count; the product `duration * 1000` is computed
in `uint32_t` and therefore reduced `% 2^32` before being added to the
`int64_t` time.  `spike_length` is `uint16_t`, so `spike_length * 1000`
(promoted to `int`) cannot wrap.  The boolean on-state is set to the
argument at the end in every mode. -/
def on' (c : UserIoControl) (isOn : Bool) (duration : Nat) (now : Nat) :
    UserIoControl :=
  let c1 :=
    if c.mode = USER_IO_MODE_ON_OFF then
      { c with digital_out := isOn }
    else if c.mode = USER_IO_MODE_SPIKE_HOLD_OFF then
      if isOn then
        let c' := { c with
          phase := USER_IO_PHASE_SPIKE,
          spike_end := now + c.spike_length * 1000,
          hold_end := if duration = 0 then 0
                      else now + duration * 1000 % 2 ^ 32 }
        write_percent c' c.spike_percent
      else
        write_pwm c 0
    else if c.mode = USER_MODE_PWM_LOW_HIGH then
      if isOn then
        let c' := { c with
          phase := USER_IO_PHASE_HOLD,
          hold_end := if duration = 0 then 0
                      else now + duration * 1000 % 2 ^ 32 }
        write_pwm c' c.pwm_duty_high
      else
        write_pwm c c.pwm_duty_low
    else
      if isOn then write_pwm c (2 ^ USER_IO_PULSE_RES_BITS)
      else write_pwm c 0
  { c1 with isOn := isOn }

/-- `UserIoControl::off`. -/
def off (c : UserIoControl) : UserIoControl :=
  let c1 :=
    if c.mode = USER_IO_MODE_ON_OFF then
      { c with digital_out := false }
    else if c.mode = USER_MODE_PWM_LOW_HIGH then
      write_pwm c c.pwm_duty_low
    else
      write_pwm c 0
  { c1 with isOn := false }

/-- `UserIoControl::set_mode`: accepts only `mode > 0 && mode < 3`. -/
def set_mode (c : UserIoControl) (mode : Nat) : UserIoControl :=
  if 0 < mode ∧ mode < 3 then { c with mode := mode } else c

/-- `UserIoControl::set_pwm_freq_bits`: the two range checks are
independent. -/
def set_pwm_freq_bits (c : UserIoControl) (pwm_freq bit_num : Nat) :
    UserIoControl :=
  let c1 := if 50 ≤ pwm_freq ∧ pwm_freq ≤ 10000 then
              { c with pwm_freq := pwm_freq } else c
  if 8 ≤ bit_num ∧ bit_num ≤ 16 then
    { c1 with pwm_resolution_bits := bit_num } else c1

/-- `UserIoControl::update`, called with the current time.  The C body
returns right after the SPIKE→HOLD transition, so the hold timeout is
not evaluated in the same invocation; when the SPIKE branch does not
fire the control falls through to the HOLD checks of the matching
mode. -/
def update (c : UserIoControl) (now : Nat) : UserIoControl :=
  if c.isOn = false then c
  else if c.mode = USER_IO_MODE_ON_OFF then c
  else if c.mode = USER_IO_MODE_SPIKE_HOLD_OFF then
    if c.phase = USER_IO_PHASE_SPIKE ∧ c.spike_end < now then
      write_percent { c with phase := USER_IO_PHASE_HOLD } c.hold_percent
    else if c.phase = USER_IO_PHASE_HOLD then
      if c.hold_end = 0 then c
      else if c.hold_end < now then
        { (write_pwm c 0) with isOn := false }
      else c
    else c
  else if c.mode = USER_MODE_PWM_LOW_HIGH then
    if c.phase = USER_IO_PHASE_HOLD then
      if c.hold_end = 0 then c
      else if c.hold_end < now then
        { (write_pwm c c.pwm_duty_low) with isOn := false }
      else c
    else c
  else c

end UserIoControl

/-- The registry of the up to six statically configured channel
instances `Pin1_UserIoControl` … `Pin6_UserIoControl`; `none` models a
channel whose `USER_DIGITAL_PIN_k` is not defined, so that the
corresponding `#ifdef` block of `sys_io_control` is absent. -/
structure IoSystem where
  pin1 : Option UserIoControl
  pin2 : Option UserIoControl
  pin3 : Option UserIoControl
  pin4 : Option UserIoControl
  pin5 : Option UserIoControl
  pin6 : Option UserIoControl
  deriving DecidableEq, Repr

namespace IoSystem

/-- Lookup by channel number (1–6); any other number has no channel. -/
def chan (sys : IoSystem) : Nat → Option UserIoControl
  | 1 => sys.pin1
  | 2 => sys.pin2
  | 3 => sys.pin3
  | 4 => sys.pin4
  | 5 => sys.pin5
  | 6 => sys.pin6
  | _ => none

/-- Channel `k` is configured and its mask bit (`io_num_mask & 1<<k`)
is set, i.e. the `k`-th `if` of `sys_io_control` exists and fires. -/
def hit (sys : IoSystem) (io_num_mask k : Nat) : Prop :=
  (sys.chan k).isSome = true ∧ io_num_mask &&& (1 <<< k) ≠ 0

instance (sys : IoSystem) (io_num_mask k : Nat) :
    Decidable (hit sys io_num_mask k) := by
  unfold hit; infer_instance

/-- `sys_io_control(uint8_t io_num_mask, bool turnOn, uint16_t duration)`:
the caller's millisecond duration is reduced `% 2^16` at the call
boundary because the parameter is `uint16_t`; then the mask is checked
channel by channel in ascending order, the first configured channel
whose bit is set receives `on(turnOn, duration)` and the function
returns.  (The leading `protocol_buffer_synchronize()` is the
out-of-scope motion-queue drain and has no effect on channel state.) -/
def sys_io_control (sys : IoSystem) (io_num_mask : Nat) (turnOn : Bool)
    (duration : Nat) (now : Nat) : IoSystem :=
  let d := duration % 2 ^ 16
  if hit sys io_num_mask 1 then
    { sys with pin1 := sys.pin1.map (fun c => c.on' turnOn d now) }
  else if hit sys io_num_mask 2 then
    { sys with pin2 := sys.pin2.map (fun c => c.on' turnOn d now) }
  else if hit sys io_num_mask 3 then
    { sys with pin3 := sys.pin3.map (fun c => c.on' turnOn d now) }
  else if hit sys io_num_mask 4 then
    { sys with pin4 := sys.pin4.map (fun c => c.on' turnOn d now) }
  else if hit sys io_num_mask 5 then
    { sys with pin5 := sys.pin5.map (fun c => c.on' turnOn d now) }
  else if hit sys io_num_mask 6 then
    { sys with pin6 := sys.pin6.map (fun c => c.on' turnOn d now) }
  else sys

end IoSystem

/-! Concrete channel values used to instantiate the theorems.
`sampleSHO` follows the spec's §8 scenario: SPIKE_HOLD_OFF, spike
length 100 ms, spike 80 %, hold 20 %, 8-bit resolution. -/

/-- A SPIKE_HOLD_OFF channel as in the spec's worked example. -/
def sampleSHO : UserIoControl where
  pin_num := 25
  channel_num := 0
  gcode_num := 2
  mode := USER_IO_MODE_SPIKE_HOLD_OFF
  phase := 0
  isOn := false
  spike_end := 0
  hold_end := 0
  spike_length := 100
  hold_length := 0
  spike_percent := 80
  hold_percent := 20
  pwm_freq := 5000
  pwm_resolution_bits := 8
  pwm_duty_low := 0
  pwm_duty_high := 0
  ledc_duty := 0
  digital_out := false

/-- A PWM_LOW_HIGH channel (servo-style low/high duties). -/
def samplePLH : UserIoControl :=
  { sampleSHO with mode := USER_MODE_PWM_LOW_HIGH,
                   pwm_duty_low := 3277, pwm_duty_high := 6554 }

/-- A channel whose mode is none of the three enumerated values. -/
def sampleOther : UserIoControl :=
  { sampleSHO with mode := 7 }

/-- `sampleSHO` after `set_pwm_freq_bits(5000, 16)`: the configured
resolution member is 16 bits. -/
def sample16 : UserIoControl :=
  sampleSHO.set_pwm_freq_bits 5000 16

/-- `sampleSHO` while on, in the SPIKE phase, with both deadlines in
the past relative to the times the witnesses use. -/
def cSpikeSample : UserIoControl :=
  { sampleSHO with isOn := true, phase := USER_IO_PHASE_SPIKE,
                   spike_end := 50000, hold_end := 40000 }

/-- `sampleSHO` while on, in the HOLD phase, with `hold_end = 0`
(indefinite hold). -/
def cHold0Sample : UserIoControl :=
  { sampleSHO with isOn := true, phase := USER_IO_PHASE_HOLD,
                   hold_end := 0 }

/-- `sampleSHO` while on, in the HOLD phase, with a finite deadline. -/
def cHoldSample : UserIoControl :=
  { sampleSHO with isOn := true, phase := USER_IO_PHASE_HOLD,
                   hold_end := 600000 }

/-- A registry with channels 2 and 3 configured. -/
def sampleSys : IoSystem where
  pin1 := none
  pin2 := some sampleSHO
  pin3 := some samplePLH
  pin4 := none
  pin5 := none
  pin6 := none

/-! ## Helper lemmas -/

theorem write_pwm_eq (c : UserIoControl) (duty : Nat) :
    c.write_pwm duty = { c with ledc_duty := duty } := by
  unfold UserIoControl.write_pwm
  split_ifs with h
  · rfl
  · push_neg at h
    rw [← h]

theorem write_percent_eq (c : UserIoControl) (p : Nat) :
    c.write_percent p
      = { c with ledc_duty := UserIoControl.mapConstrain p 0 100 0 (2 ^ USER_IO_PULSE_RES_BITS - 1) } := by
  unfold UserIoControl.write_percent
  rw [write_pwm_eq]

theorem chan_none_outside (sys : IoSystem) (k : Nat)
    (h : ¬(1 ≤ k ∧ k ≤ 6)) : sys.chan k = none := by
  rcases k with _ | _ | _ | _ | _ | _ | _ | n <;>
    first
    | rfl
    | exact absurd (by omega) h

theorem hit_range (sys : IoSystem) (mask k : Nat)
    (h : sys.hit mask k) : 1 ≤ k ∧ k ≤ 6 := by
  by_contra hk
  have hnone := chan_none_outside sys k hk
  rcases h with ⟨hs, _⟩
  rw [hnone] at hs
  simp at hs

/-! ## Claims -/

/-- C3: for every channel and every current time, `update()` leaves the
channel's entire state (phase, on-state, deadlines) and the hardware
output unchanged whenever the channel's on-state is false or its mode
is ON_OFF. -/
theorem update_noop_when_off_or_onoff (c : UserIoControl) (now : Nat)
    (h : c.isOn = false ∨ c.mode = USER_IO_MODE_ON_OFF) :
    c.update now = c := by
  unfold UserIoControl.update
  rcases h with h | h <;> simp [h]

theorem update_noop_when_off_or_onoff_witness :
    ({ sampleSHO with mode := USER_IO_MODE_ON_OFF, isOn := true } :
        UserIoControl).update 1000000000
      = { sampleSHO with mode := USER_IO_MODE_ON_OFF, isOn := true } :=
  update_noop_when_off_or_onoff _ 1000000000 (Or.inr rfl)

/-- C6: for every channel in every mode and every duration `d`, `off()`
produces exactly the same resulting channel state and hardware output
as `on(false, d)`: digital low in ON_OFF mode, the low duty level in
PWM_LOW_HIGH mode, zero duty otherwise, and the on-state cleared. -/
theorem off_eq_on_false (c : UserIoControl) (d now : Nat) :
    c.off = c.on' false d now := by
  unfold UserIoControl.off UserIoControl.on'
  simp only [Bool.false_eq_true, if_false]
  split_ifs <;> simp_all [USER_IO_MODE_ON_OFF,
    USER_IO_MODE_SPIKE_HOLD_OFF, USER_MODE_PWM_LOW_HIGH]

/-- C4: for a channel in SPIKE_HOLD_OFF mode that is on and in the
SPIKE phase, a single `update()` at a time strictly after `spike_end`
transitions the phase to HOLD and drives duty equal to the hold-percent
mapping, and performs no further transition in that same invocation:
the on-state stays true and `hold_end` is untouched (and hence not
evaluated) even when the hold deadline has also expired. -/
theorem update_spike_transition (c : UserIoControl) (now : Nat)
    (hm : c.mode = USER_IO_MODE_SPIKE_HOLD_OFF)
    (hOn : c.isOn = true)
    (hp : c.phase = USER_IO_PHASE_SPIKE)
    (ht : c.spike_end < now) :
    (c.update now).phase = USER_IO_PHASE_HOLD ∧
    (c.update now).ledc_duty = UserIoControl.mapConstrain c.hold_percent 0 100 0 (2 ^ USER_IO_PULSE_RES_BITS - 1) ∧
    (c.update now).isOn = true ∧
    (c.update now).hold_end = c.hold_end ∧
    (c.update now).spike_end = c.spike_end := by
  have h : c.update now
      = UserIoControl.write_percent { c with phase := USER_IO_PHASE_HOLD }
          c.hold_percent := by
    unfold UserIoControl.update
    simp [hm, hOn, hp, ht, USER_IO_MODE_ON_OFF, USER_IO_MODE_SPIKE_HOLD_OFF,
      USER_IO_PHASE_SPIKE]
  refine ⟨?_, ?_, ?_, ?_, ?_⟩ <;> (rw [h, write_percent_eq]; try simp [hOn])

theorem update_spike_transition_witness :
    (cSpikeSample.update 60000).isOn = true ∧
    (cSpikeSample.update 60000).hold_end = 40000 :=
  ⟨(update_spike_transition cSpikeSample 60000 rfl rfl rfl
      (by norm_num [cSpikeSample, sampleSHO])).2.2.1,
   (update_spike_transition cSpikeSample 60000 rfl rfl rfl
      (by norm_num [cSpikeSample, sampleSHO])).2.2.2.1⟩

/-- C5: for a channel in SPIKE_HOLD_OFF or PWM_LOW_HIGH mode that is on
and in the HOLD phase: with `hold_end = 0` no sequence of `update()`
calls at any times ever changes the state (in particular the on-state
and the duty), while with `hold_end ≠ 0` an `update()` at a time not
after `hold_end` is a no-op and the first `update()` at a time strictly
after `hold_end` clears the on-state and drives duty 0 in
SPIKE_HOLD_OFF mode and the low duty level in PWM_LOW_HIGH mode. -/
theorem update_hold_phase (c : UserIoControl)
    (hm : c.mode = USER_IO_MODE_SPIKE_HOLD_OFF ∨
          c.mode = USER_MODE_PWM_LOW_HIGH)
    (hOn : c.isOn = true)
    (hp : c.phase = USER_IO_PHASE_HOLD) :
    (c.hold_end = 0 →
      ∀ ts : List Nat, ts.foldl UserIoControl.update c = c) ∧
    (c.hold_end ≠ 0 → ∀ now, now ≤ c.hold_end → c.update now = c) ∧
    (c.hold_end ≠ 0 → ∀ now, c.hold_end < now →
      (c.update now).isOn = false ∧
      (c.update now).ledc_duty =
        (if c.mode = USER_IO_MODE_SPIKE_HOLD_OFF then 0
         else c.pwm_duty_low)) := by
  have hid : c.hold_end = 0 → ∀ now, c.update now = c := by
    intro h0 now
    unfold UserIoControl.update
    rcases hm with hm | hm <;>
      simp [hm, hOn, hp, h0, USER_IO_MODE_ON_OFF,
        USER_IO_MODE_SPIKE_HOLD_OFF, USER_MODE_PWM_LOW_HIGH,
        USER_IO_PHASE_SPIKE, USER_IO_PHASE_HOLD]
  refine ⟨fun h0 ts => ?_, fun hne now hle => ?_, fun hne now hlt => ?_⟩
  · induction ts with
    | nil => rfl
    | cons t ts ih => rw [List.foldl_cons, hid h0 t]; exact ih
  · unfold UserIoControl.update
    rcases hm with hm | hm <;>
      simp [hm, hOn, hp, hne, Nat.not_lt.mpr hle, USER_IO_MODE_ON_OFF,
        USER_IO_MODE_SPIKE_HOLD_OFF, USER_MODE_PWM_LOW_HIGH,
        USER_IO_PHASE_SPIKE, USER_IO_PHASE_HOLD]
  · rcases hm with hm | hm
    · have h : c.update now = { (c.write_pwm 0) with isOn := false } := by
        unfold UserIoControl.update
        simp [hm, hOn, hp, hne, hlt, USER_IO_MODE_ON_OFF,
          USER_IO_MODE_SPIKE_HOLD_OFF, USER_IO_PHASE_SPIKE,
          USER_IO_PHASE_HOLD]
      rw [h, write_pwm_eq]
      simp [hm]
    · have h : c.update now
          = { (c.write_pwm c.pwm_duty_low) with isOn := false } := by
        unfold UserIoControl.update
        simp [hm, hOn, hp, hne, hlt, USER_IO_MODE_ON_OFF,
          USER_IO_MODE_SPIKE_HOLD_OFF, USER_MODE_PWM_LOW_HIGH,
          USER_IO_PHASE_SPIKE, USER_IO_PHASE_HOLD]
      rw [h, write_pwm_eq]
      simp [hm, USER_IO_MODE_SPIKE_HOLD_OFF, USER_MODE_PWM_LOW_HIGH]

theorem update_hold_phase_witness :
    ([1000000000000, 5, 77].foldl UserIoControl.update cHold0Sample
        = cHold0Sample) ∧
    (cHoldSample.update 600001).isOn = false :=
  ⟨(update_hold_phase cHold0Sample (Or.inl rfl) rfl rfl).1 rfl
      [1000000000000, 5, 77],
   ((update_hold_phase cHoldSample (Or.inl rfl) rfl rfl).2.2
      (by norm_num [cHoldSample, sampleSHO]) 600001
      (by norm_num [cHoldSample, sampleSHO])).1⟩

/-- C1 counterexample: for the SPIKE_HOLD_OFF channel `sampleSHO`,
`on(true, 5000000)` at time 0 does not set `hold_end` to the current
time plus the requested duration of 5 000 000 ms: the `uint32_t`
product `duration * 1000` wraps, leaving `hold_end = 705032704` µs
(≈ 705 s) instead of 5 000 000 000 µs. -/
theorem on_true_duration_wraps :
    (sampleSHO.on' true 5000000 0).hold_end = 705032704 ∧
    (sampleSHO.on' true 5000000 0).hold_end ≠ 0 + 5000000 * 1000 ∧
    (sampleSHO.on' true 5000000 0).hold_end ≠ 0 + 5000000 := by
  decide

/-- C1 (amended): for a channel in SPIKE_HOLD_OFF mode, `on(true, d)`
enters the SPIKE phase, sets `spike_end` to the current time plus the
configured spike duration, sets `hold_end` to 0 when `d = 0` and to the
current time plus `d * 1000 % 2^32` microseconds otherwise (the product
is `uint32_t` arithmetic, so it equals the current time plus the
requested duration exactly when `d * 1000 < 2^32`), drives duty equal
to the spike-percent mapping, and the resulting on-state is true. -/
theorem on_true_spike_hold_off (c : UserIoControl) (d now : Nat)
    (hm : c.mode = USER_IO_MODE_SPIKE_HOLD_OFF) :
    (c.on' true d now).phase = USER_IO_PHASE_SPIKE ∧
    (c.on' true d now).spike_end = now + c.spike_length * 1000 ∧
    (c.on' true d now).hold_end =
      (if d = 0 then 0 else now + d * 1000 % 2 ^ 32) ∧
    (d ≠ 0 → d * 1000 < 2 ^ 32 →
      (c.on' true d now).hold_end = now + d * 1000) ∧
    (c.on' true d now).ledc_duty =
      UserIoControl.mapConstrain c.spike_percent 0 100 0 (2 ^ USER_IO_PULSE_RES_BITS - 1) ∧
    (c.on' true d now).isOn = true := by
  have h : c.on' true d now
      = { (UserIoControl.write_percent { c with
            phase := USER_IO_PHASE_SPIKE,
            spike_end := now + c.spike_length * 1000,
            hold_end := if d = 0 then 0 else now + d * 1000 % 2 ^ 32 }
            c.spike_percent) with isOn := true } := by
    unfold UserIoControl.on'
    simp [hm, USER_IO_MODE_ON_OFF, USER_IO_MODE_SPIKE_HOLD_OFF]
  rw [h, write_percent_eq]
  refine ⟨rfl, rfl, rfl, fun hd hlt => ?_, rfl, rfl⟩
  simp [hd, Nat.mod_eq_of_lt hlt]
  simpa using hlt

theorem on_true_spike_hold_off_witness :
    (sampleSHO.on' true 500 1000).phase = USER_IO_PHASE_SPIKE ∧
    (sampleSHO.on' true 500 1000).spike_end = 1000 + 100 * 1000 ∧
    (sampleSHO.on' true 500 1000).hold_end = 1000 + 500 * 1000 ∧
    (sampleSHO.on' true 500 1000).isOn = true := by
  have h := on_true_spike_hold_off sampleSHO 500 1000 rfl
  exact ⟨h.1, h.2.1, h.2.2.2.1 (by norm_num) (by norm_num), h.2.2.2.2.2⟩

/-- C7 counterexample: after `set_pwm_freq_bits(5000, 16)` the
channel's configured resolution member is 16 bits, but
`_write_percent` still maps onto the compile-time
`USER_IO_PULSE_RES_BITS` scale: `write_percent 100` drives duty 255,
not `2^16 - 1 = 65535` as the claim's mapping would. -/
theorem write_percent_ignores_member_bits :
    sample16.pwm_resolution_bits = 16 ∧
    (sample16.write_percent 100).ledc_duty = 255 ∧
    (sample16.write_percent 100).ledc_duty
      ≠ 2 ^ sample16.pwm_resolution_bits - 1 := by
  decide

/-- C7 (amended): the percent-to-duty mapping used when driving spike
and hold percentages is the linear, truncating map from [0,100] onto
[0, 2^USER_IO_PULSE_RES_BITS - 1], where USER_IO_PULSE_RES_BITS is the
compile-time resolution constant (8 bits), not the channel's configured
`pwm_resolution_bits` member; the map is monotonic, map(0) = 0,
map(100) = 2^8 - 1 = 255, map(80) = 204 and map(20) = 51. -/
theorem percent_map_props :
    (∀ (c : UserIoControl) (p : Nat), (c.write_percent p).ledc_duty
        = UserIoControl.mapConstrain p 0 100 0 (2 ^ USER_IO_PULSE_RES_BITS - 1)) ∧
    (∀ p q : Nat, p ≤ q →
      UserIoControl.mapConstrain p 0 100 0 (2 ^ USER_IO_PULSE_RES_BITS - 1)
        ≤ UserIoControl.mapConstrain q 0 100 0 (2 ^ USER_IO_PULSE_RES_BITS - 1)) ∧
    (∀ p : Nat, p ≤ 100 →
      UserIoControl.mapConstrain p 0 100 0 (2 ^ USER_IO_PULSE_RES_BITS - 1)
        = p * (2 ^ USER_IO_PULSE_RES_BITS - 1) / 100) ∧
    UserIoControl.mapConstrain 0 0 100 0 (2 ^ USER_IO_PULSE_RES_BITS - 1) = 0 ∧
    UserIoControl.mapConstrain 100 0 100 0 (2 ^ USER_IO_PULSE_RES_BITS - 1)
      = 2 ^ USER_IO_PULSE_RES_BITS - 1 ∧
    UserIoControl.mapConstrain 80 0 100 0 (2 ^ USER_IO_PULSE_RES_BITS - 1) = 204 ∧
    UserIoControl.mapConstrain 20 0 100 0 (2 ^ USER_IO_PULSE_RES_BITS - 1) = 51 := by
  refine ⟨?_, ?_, ?_, by decide, by decide, by decide, by decide⟩
  · intro c p
    rw [write_percent_eq]
  · intro p q hpq
    simp only [UserIoControl.mapConstrain]
    apply Nat.add_le_add_left
    apply Nat.div_le_div_right
    apply mul_le_mul_right'
    apply tsub_le_tsub_right
    exact min_le_min (max_le_max hpq le_rfl) le_rfl
  · intro p hp
    unfold UserIoControl.mapConstrain
    simp [Nat.max_eq_left (Nat.zero_le p), Nat.min_eq_left hp]

theorem percent_map_props_witness :
    (sampleSHO.write_percent 80).ledc_duty
      = UserIoControl.mapConstrain 80 0 100 0 (2 ^ USER_IO_PULSE_RES_BITS - 1) ∧
    UserIoControl.mapConstrain 20 0 100 0 (2 ^ USER_IO_PULSE_RES_BITS - 1)
      ≤ UserIoControl.mapConstrain 80 0 100 0 (2 ^ USER_IO_PULSE_RES_BITS - 1) ∧
    UserIoControl.mapConstrain 33 0 100 0 (2 ^ USER_IO_PULSE_RES_BITS - 1)
      = 33 * (2 ^ USER_IO_PULSE_RES_BITS - 1) / 100 :=
  ⟨percent_map_props.1 sampleSHO 80,
   percent_map_props.2.1 20 80 (by norm_num),
   percent_map_props.2.2.1 33 (by norm_num)⟩

/-- C8 counterexample: `set_mode` accepts only `mode > 0 && mode < 3`,
so the enumerated ON_OFF value (0) is rejected: on a PWM_LOW_HIGH
channel, `set_mode(USER_IO_MODE_ON_OFF)` leaves the mode at
PWM_LOW_HIGH instead of updating it as the claim states. -/
theorem set_mode_rejects_on_off :
    (samplePLH.set_mode USER_IO_MODE_ON_OFF).mode = USER_MODE_PWM_LOW_HIGH ∧
    (samplePLH.set_mode USER_IO_MODE_ON_OFF).mode ≠ USER_IO_MODE_ON_OFF := by
  decide

/-- C8 (amended): `set_mode(m)` updates the stored mode exactly when
`0 < m < 3`, i.e. for SPIKE_HOLD_OFF (1) and PWM_LOW_HIGH (2); the
ON_OFF value (0), like every other value, leaves the previous mode
unchanged with no error reported.  `set_pwm_freq_bits(f, b)` updates
the frequency exactly when `f ∈ [50, 10000]` and the resolution bits
exactly when `b ∈ [8, 16]`, each out-of-range argument leaving its
previous value unchanged with no error reported, and `set_pwm_freq_bits`
does not touch the mode. -/
theorem setter_range_validation (c : UserIoControl) (m f b : Nat) :
    ((0 < m ∧ m < 3) → (c.set_mode m).mode = m) ∧
    (¬(0 < m ∧ m < 3) → c.set_mode m = c) ∧
    ((0 < m ∧ m < 3) → (c.set_mode m).pwm_freq = c.pwm_freq ∧
      (c.set_mode m).isOn = c.isOn ∧ (c.set_mode m).phase = c.phase) ∧
    ((50 ≤ f ∧ f ≤ 10000) → (c.set_pwm_freq_bits f b).pwm_freq = f) ∧
    (¬(50 ≤ f ∧ f ≤ 10000) →
      (c.set_pwm_freq_bits f b).pwm_freq = c.pwm_freq) ∧
    ((8 ≤ b ∧ b ≤ 16) →
      (c.set_pwm_freq_bits f b).pwm_resolution_bits = b) ∧
    (¬(8 ≤ b ∧ b ≤ 16) →
      (c.set_pwm_freq_bits f b).pwm_resolution_bits
        = c.pwm_resolution_bits) ∧
    (c.set_pwm_freq_bits f b).mode = c.mode := by
  unfold UserIoControl.set_mode UserIoControl.set_pwm_freq_bits
  refine ⟨fun h => ?_, fun h => ?_, fun h => ?_, fun h => ?_, fun h => ?_,
    fun h => ?_, fun h => ?_, ?_⟩ <;>
    (split_ifs <;> simp_all)

theorem setter_range_validation_witness :
    (sampleSHO.set_mode 2).mode = 2 ∧
    (sampleSHO.set_pwm_freq_bits 49 16).pwm_freq = sampleSHO.pwm_freq ∧
    (sampleSHO.set_pwm_freq_bits 49 16).pwm_resolution_bits = 16 :=
  ⟨(setter_range_validation sampleSHO 2 49 16).1 (by norm_num),
   (setter_range_validation sampleSHO 2 49 16).2.2.2.2.1 (by norm_num),
   (setter_range_validation sampleSHO 2 49 16).2.2.2.2.2.1 (by norm_num)⟩

/-- C9 counterexample: for a channel in a default (non-enumerated)
mode, `on(true, d)` writes duty `1 << USER_IO_PULSE_RES_BITS` = 256 —
one above the maximum representable duty `2^8 - 1 = 255` that the
claim states (`sampleOther.pwm_resolution_bits` is 8). -/
theorem on_default_overshoots_full_scale :
    (sampleOther.on' true 0 0).ledc_duty = 256 ∧
    (sampleOther.on' true 0 0).ledc_duty
      ≠ 2 ^ sampleOther.pwm_resolution_bits - 1 := by
  decide

/-- C9 (amended): for a channel whose mode is none of the three
enumerated values, `on(true, d)` drives duty
`2 ^ USER_IO_PULSE_RES_BITS` (256 at the compile-time 8-bit
resolution) — one more than the maximum representable duty — and
`on(false, d)` drives zero duty, for every duration `d`. -/
theorem on_default_mode (c : UserIoControl) (d now : Nat)
    (h0 : c.mode ≠ USER_IO_MODE_ON_OFF)
    (h1 : c.mode ≠ USER_IO_MODE_SPIKE_HOLD_OFF)
    (h2 : c.mode ≠ USER_MODE_PWM_LOW_HIGH) :
    (c.on' true d now).ledc_duty = 2 ^ USER_IO_PULSE_RES_BITS ∧
    (c.on' true d now).isOn = true ∧
    (c.on' false d now).ledc_duty = 0 ∧
    (c.on' false d now).isOn = false := by
  have ht : c.on' true d now
      = { (c.write_pwm (2 ^ USER_IO_PULSE_RES_BITS)) with isOn := true } := by
    unfold UserIoControl.on'
    simp [h0, h1, h2]
  have hf : c.on' false d now = { (c.write_pwm 0) with isOn := false } := by
    unfold UserIoControl.on'
    simp [h0, h1, h2]
  rw [ht, hf]
  simp [write_pwm_eq]

theorem on_default_mode_witness :
    (sampleOther.on' true 17 3).ledc_duty = 2 ^ USER_IO_PULSE_RES_BITS ∧
    (sampleOther.on' false 17 3).ledc_duty = 0 :=
  ⟨(on_default_mode sampleOther 17 3 (by decide) (by decide) (by decide)).1,
   (on_default_mode sampleOther 17 3
      (by decide) (by decide) (by decide)).2.2.1⟩

/-- C2: for every channel mask, on/off flag and duration, the
dispatcher `sys_io_control` inspects the mask bit by bit in ascending
channel-number order and forwards `on(turnOn, duration)` to the first
configured channel whose bit is set (first conjunct of the second
part), returning right after that first match so that every other
channel — matched or not — is left unchanged (second conjunct); when no
configured channel's bit is set the call leaves the whole registry
unchanged and is not an error (first part). -/
theorem sys_io_control_first_match (sys : IoSystem) (mask : Nat)
    (turnOn : Bool) (duration now : Nat) :
    ((∀ k, ¬ sys.hit mask k) →
      sys.sys_io_control mask turnOn duration now = sys) ∧
    (∀ k, sys.hit mask k → (∀ j, sys.hit mask j → k ≤ j) →
      ((sys.sys_io_control mask turnOn duration now).chan k
        = (sys.chan k).map
            (fun c => c.on' turnOn (duration % 2 ^ 16) now)) ∧
      (∀ j, j ≠ k →
        (sys.sys_io_control mask turnOn duration now).chan j
          = sys.chan j)) := by
  simp only [IoSystem.sys_io_control]
  by_cases H1 : sys.hit mask 1
  · rw [if_pos H1]
    constructor
    · intro hnone
      exact absurd H1 (hnone 1)
    · intro k hk hmin
      obtain ⟨hklo, hkhi⟩ := hit_range sys mask k hk
      have hki : k ≤ 1 := hmin 1 H1
      have hkeq : k = 1 := by omega
      subst hkeq
      refine ⟨rfl, fun j hj => ?_⟩
      rcases j with _ | _ | _ | _ | _ | _ | _ | n <;>
        first
        | rfl
        | exact absurd rfl hj
  · rw [if_neg H1]
    by_cases H2 : sys.hit mask 2
    · rw [if_pos H2]
      constructor
      · intro hnone
        exact absurd H2 (hnone 2)
      · intro k hk hmin
        obtain ⟨hklo, hkhi⟩ := hit_range sys mask k hk
        have hki : k ≤ 2 := hmin 2 H2
        have hkeq : k = 2 := by
          interval_cases k
          · exact absurd hk H1
          · rfl
        subst hkeq
        refine ⟨rfl, fun j hj => ?_⟩
        rcases j with _ | _ | _ | _ | _ | _ | _ | n <;>
          first
          | rfl
          | exact absurd rfl hj
    · rw [if_neg H2]
      by_cases H3 : sys.hit mask 3
      · rw [if_pos H3]
        constructor
        · intro hnone
          exact absurd H3 (hnone 3)
        · intro k hk hmin
          obtain ⟨hklo, hkhi⟩ := hit_range sys mask k hk
          have hki : k ≤ 3 := hmin 3 H3
          have hkeq : k = 3 := by
            interval_cases k
            · exact absurd hk H1
            · exact absurd hk H2
            · rfl
          subst hkeq
          refine ⟨rfl, fun j hj => ?_⟩
          rcases j with _ | _ | _ | _ | _ | _ | _ | n <;>
            first
            | rfl
            | exact absurd rfl hj
      · rw [if_neg H3]
        by_cases H4 : sys.hit mask 4
        · rw [if_pos H4]
          constructor
          · intro hnone
            exact absurd H4 (hnone 4)
          · intro k hk hmin
            obtain ⟨hklo, hkhi⟩ := hit_range sys mask k hk
            have hki : k ≤ 4 := hmin 4 H4
            have hkeq : k = 4 := by
              interval_cases k
              · exact absurd hk H1
              · exact absurd hk H2
              · exact absurd hk H3
              · rfl
            subst hkeq
            refine ⟨rfl, fun j hj => ?_⟩
            rcases j with _ | _ | _ | _ | _ | _ | _ | n <;>
              first
              | rfl
              | exact absurd rfl hj
        · rw [if_neg H4]
          by_cases H5 : sys.hit mask 5
          · rw [if_pos H5]
            constructor
            · intro hnone
              exact absurd H5 (hnone 5)
            · intro k hk hmin
              obtain ⟨hklo, hkhi⟩ := hit_range sys mask k hk
              have hki : k ≤ 5 := hmin 5 H5
              have hkeq : k = 5 := by
                interval_cases k
                · exact absurd hk H1
                · exact absurd hk H2
                · exact absurd hk H3
                · exact absurd hk H4
                · rfl
              subst hkeq
              refine ⟨rfl, fun j hj => ?_⟩
              rcases j with _ | _ | _ | _ | _ | _ | _ | n <;>
                first
                | rfl
                | exact absurd rfl hj
          · rw [if_neg H5]
            by_cases H6 : sys.hit mask 6
            · rw [if_pos H6]
              constructor
              · intro hnone
                exact absurd H6 (hnone 6)
              · intro k hk hmin
                obtain ⟨hklo, hkhi⟩ := hit_range sys mask k hk
                have hki : k ≤ 6 := hmin 6 H6
                have hkeq : k = 6 := by
                  interval_cases k
                  · exact absurd hk H1
                  · exact absurd hk H2
                  · exact absurd hk H3
                  · exact absurd hk H4
                  · exact absurd hk H5
                  · rfl
                subst hkeq
                refine ⟨rfl, fun j hj => ?_⟩
                rcases j with _ | _ | _ | _ | _ | _ | _ | n <;>
                  first
                  | rfl
                  | exact absurd rfl hj
            · rw [if_neg H6]
              constructor
              · intro _
                rfl
              · intro k hk hmin
                exfalso
                obtain ⟨hklo, hkhi⟩ := hit_range sys mask k hk
                interval_cases k
                · exact H1 hk
                · exact H2 hk
                · exact H3 hk
                · exact H4 hk
                · exact H5 hk
                · exact H6 hk

theorem sys_io_control_first_match_witness :
    ((sampleSys.sys_io_control 12 true 500 0).chan 2
      = (sampleSys.chan 2).map (fun c => c.on' true (500 % 2 ^ 16) 0)) ∧
    ((sampleSys.sys_io_control 12 true 500 0).chan 3
      = sampleSys.chan 3) ∧
    sampleSys.sys_io_control 1 true 500 0 = sampleSys := by
  have hmin : ∀ j, sampleSys.hit 12 j → 2 ≤ j := by
    intro j hj
    obtain ⟨hjlo, hjhi⟩ := hit_range sampleSys 12 j hj
    interval_cases j
    · exact absurd hj (by decide)
    all_goals omega
  have h2 := (sys_io_control_first_match sampleSys 12 true 500 0).2 2
    (by decide) hmin
  refine ⟨h2.1, h2.2 3 (by decide), ?_⟩
  refine (sys_io_control_first_match sampleSys 1 true 500 0).1 ?_
  intro k hk
  obtain ⟨hklo, hkhi⟩ := hit_range sampleSys 1 k hk
  interval_cases k <;> exact absurd hk (by decide)

/-- C10: `sys_io_control` declares its duration parameter `uint16_t`
while `UserIoControl::on` accepts `uint32_t`, so every call routed
through the dispatcher behaves exactly as if the caller's duration had
been reduced modulo 2^16 (first conjunct); the reduced value is below
65536 (second conjunct), hence for a SPIKE_HOLD_OFF channel the
auto-off deadline reachable through the dispatcher is either 0 or less
than `now + 65536 * 1000` µs (third conjunct), whereas a direct `on()`
call with 65536 ≤ d (below the `uint32_t` wrap bound) sets
`hold_end = now + d * 1000`, an auto-off of 65536 ms or more (fourth
conjunct). -/
theorem sys_io_control_duration_uint16 (sys : IoSystem) (mask : Nat)
    (turnOn : Bool) (d now : Nat) :
    sys.sys_io_control mask turnOn d now
      = sys.sys_io_control mask turnOn (d % 2 ^ 16) now ∧
    d % 2 ^ 16 < 2 ^ 16 ∧
    (∀ (c : UserIoControl) (t : Nat),
      c.mode = USER_IO_MODE_SPIKE_HOLD_OFF →
      (c.on' true (d % 2 ^ 16) t).hold_end = 0 ∨
      (c.on' true (d % 2 ^ 16) t).hold_end < t + 2 ^ 16 * 1000) ∧
    (∀ (c : UserIoControl) (dd t : Nat),
      c.mode = USER_IO_MODE_SPIKE_HOLD_OFF → 2 ^ 16 ≤ dd →
      dd * 1000 < 2 ^ 32 →
      (c.on' true dd t).hold_end = t + dd * 1000 ∧
      2 ^ 16 * 1000 ≤ dd * 1000) := by
  have hold_end_on : ∀ (c : UserIoControl) (dd t : Nat),
      c.mode = USER_IO_MODE_SPIKE_HOLD_OFF →
      (c.on' true dd t).hold_end
        = if dd = 0 then 0 else t + dd * 1000 % 2 ^ 32 := by
    intro c dd t hm
    unfold UserIoControl.on'
    simp [hm, USER_IO_MODE_ON_OFF, USER_IO_MODE_SPIKE_HOLD_OFF,
      write_percent_eq]
  refine ⟨?_, Nat.mod_lt _ (by norm_num), ?_, ?_⟩
  · have hmm : d % 2 ^ 16 % 2 ^ 16 = d % 2 ^ 16 :=
      Nat.mod_mod_of_dvd d dvd_rfl
    simp only [IoSystem.sys_io_control, hmm]
  · intro c t hm
    rw [hold_end_on c (d % 2 ^ 16) t hm]
    by_cases hz : d % 2 ^ 16 = 0
    · left
      rw [if_pos hz]
    · right
      rw [if_neg hz]
      have h1 : d % 2 ^ 16 < 2 ^ 16 := Nat.mod_lt _ (by norm_num)
      have h2 : d % 2 ^ 16 * 1000 < 2 ^ 16 * 1000 := by
        have := h1
        norm_num at this ⊢
        omega
      have h3 : d % 2 ^ 16 * 1000 % 2 ^ 32 = d % 2 ^ 16 * 1000 := by
        apply Nat.mod_eq_of_lt
        calc d % 2 ^ 16 * 1000 < 2 ^ 16 * 1000 := h2
          _ < 2 ^ 32 := by norm_num
      rw [h3]
      omega
  · intro c dd t hm hdd hlt
    have hz : dd ≠ 0 := by
      intro h
      rw [h] at hdd
      norm_num at hdd
    rw [hold_end_on c dd t hm, if_neg hz, Nat.mod_eq_of_lt hlt]
    refine ⟨rfl, ?_⟩
    have : (2 : Nat) ^ 16 = 65536 := by norm_num
    rw [this] at hdd ⊢
    omega

theorem sys_io_control_duration_uint16_witness :
    sampleSys.sys_io_control 4 true 70000 0
      = sampleSys.sys_io_control 4 true (70000 % 2 ^ 16) 0 ∧
    (sampleSHO.on' true 70000 0).hold_end = 0 + 70000 * 1000 :=
  ⟨(sys_io_control_duration_uint16 sampleSys 4 true 70000 0).1,
   ((sys_io_control_duration_uint16 sampleSys 4 true 70000 0).2.2.2
      sampleSHO 70000 0 rfl (by norm_num) (by norm_num)).1⟩

end UserIo
